import Mathlib

/-!
Verification development for the kiwi-tv repository.

The definitions below are shallow embeddings of the TypeScript/JavaScript
source files:
  * `src/services/tvService.ts` — resilient proxied fetching, channel
    catalog normalisation, EPG ingestion;
  * `src/server.js` — the express stream-proxy gateway;
  * `src/api/stream-proxy.ts` — the serverless (Vercel) stream-proxy gateway;
  * `src/unnamed/part_002` — a third express stream-proxy handler.

Network effects are embedded by passing an explicit oracle
`net : String → FetchOutcome` that gives, for each requested URL, the
outcome the host `fetch` would produce (a response object or a thrown
error's message).  Functions that in the source perform requests take the
oracle as a parameter and, where a claim is about which requests are made,
additionally return the ordered trace of requested URLs.
-/

namespace KiwiTV

/-! ## JavaScript string / URI primitives

Models of the host-provided string and URI functions that the source
calls (`encodeURIComponent`, `decodeURIComponent`, `String.prototype.includes`,
`String(x)` coercion).  All are defined over the character list of the
string so that they evaluate by kernel reduction. -/

/-- Single-quote character (code point 39). -/
def squote : Char := Char.ofNat 39

/-- Double-quote character (code point 34). -/
def dquote : Char := Char.ofNat 34

/-- Whether `needle` occurs as a contiguous substring of `hay`
(model of JavaScript `hay.includes(needle)`). -/
def containsSub (hay needle : List Char) : Bool :=
  match hay with
  | [] => needle.isEmpty
  | _ :: rest => needle.isPrefixOf hay || containsSub rest needle

/-- String-level wrapper for `containsSub`: model of `a.includes(b)`. -/
def strContains (a b : String) : Bool := containsSub a.data b.data

/-- Model of `s.startsWith(pre)` (defined over the character list so that
it evaluates by kernel reduction). -/
def strStartsWith (s pre : String) : Bool := pre.data.isPrefixOf s.data

/-- Model of `s.endsWith(suf)`. -/
def strEndsWith (s suf : String) : Bool := suf.data.isSuffixOf s.data

/-- Model of `s.toLowerCase()` (ASCII case mapping, which covers every
string this code lower-cases; the non-ASCII characters appearing in the
priority list are already lower-case where it matters). -/
def strToLower (s : String) : String := String.mk (s.data.map Char.toLower)

/-- JavaScript whitespace for `trim` (ASCII subset). -/
def isJsWS (c : Char) : Bool := c = ' ' || c = '\t' || c = '\n' || c = '\r'

/-- Model of `s.trim()`. -/
def strTrim (s : String) : String :=
  String.mk (((s.data.dropWhile isJsWS).reverse.dropWhile isJsWS).reverse)

/-- Upper-case hexadecimal digit for a value `< 16`. -/
def hexChar (n : Nat) : Char := ("0123456789ABCDEF".data).getD n '0'

/-- UTF-8 byte sequence of one character. -/
def utf8Bytes (c : Char) : List Nat :=
  let n := c.toNat
  if n < 0x80 then [n]
  else if n < 0x800 then [0xC0 + n / 0x40, 0x80 + n % 0x40]
  else if n < 0x10000 then
    [0xE0 + n / 0x1000, 0x80 + n / 0x40 % 0x40, 0x80 + n % 0x40]
  else
    [0xF0 + n / 0x40000, 0x80 + n / 0x1000 % 0x40, 0x80 + n / 0x40 % 0x40,
      0x80 + n % 0x40]

/-- Characters left unescaped by `encodeURIComponent`:
`A–Z a–z 0–9 - _ . ! ~ * ' ( )`. -/
def isUnreservedURI (c : Char) : Bool :=
  ('A' ≤ c && c ≤ 'Z') || ('a' ≤ c && c ≤ 'z') || ('0' ≤ c && c ≤ '9') ||
  c = '-' || c = '_' || c = '.' || c = '!' || c = '~' || c = '*' ||
  c = squote || c = '(' || c = ')'

/-- Model of the host `encodeURIComponent`: unreserved characters are kept,
every other character is replaced by the `%HH` encodings of its UTF-8
bytes. -/
def encodeURIComponent (s : String) : String :=
  String.mk <| (s.data.map fun c =>
    if isUnreservedURI c then [c]
    else (utf8Bytes c).map (fun b => ['%', hexChar (b / 16), hexChar (b % 16)]) |>.flatten).flatten

/-- Numeric value of a hexadecimal digit character, if it is one
(code points 48–57 are `0`–`9`, 65–70 are `A`–`F`, 97–102 are `a`–`f`). -/
def hexVal? (c : Char) : Option Nat :=
  let n := c.toNat
  if 48 ≤ n ∧ n ≤ 57 then some (n - 48)
  else if 65 ≤ n ∧ n ≤ 70 then some (n - 55)
  else if 97 ≤ n ∧ n ≤ 102 then some (n - 87)
  else none

/-- Percent-decoding of a character list.  Models the host
`decodeURIComponent` on strings whose escape sequences denote single-byte
(ASCII) code points; multi-byte UTF-8 reassembly and the `URIError` raised
on malformed escapes are outside the model (no claim exercises either:
the inputs decoded by the claims contain no `%` at all). -/
def decodePercent : List Char → List Char
  | '%' :: h1 :: h2 :: rest =>
    match hexVal? h1, hexVal? h2 with
    | some a, some b => Char.ofNat (16 * a + b) :: decodePercent rest
    | _, _ => '%' :: decodePercent (h1 :: h2 :: rest)
  | c :: rest => c :: decodePercent rest
  | [] => []

/-- Model of `decodeURIComponent` (see `decodePercent`). -/
def decodeURIComponentJS (s : String) : String := String.mk (decodePercent s.data)

/-- Model of the JavaScript coercion `String(x)` applied to the value of a
query parameter that may be `undefined`: an absent value becomes the
literal string `"undefined"`. -/
def jsStringCoerce (o : Option String) : String :=
  match o with
  | some s => s
  | none => "undefined"

/-! ## ResilientFetcher (`src/services/tvService.ts`, `resilientFetch`)

A `Response` models the host fetch `Response` object restricted to the
fields the source reads (`ok`, `status`, `statusText`,
`headers.get('content-type')`, and the text body).  A `FetchOutcome` is
what one awaited `fetch` produces: a response, or the message of the
thrown error (timeouts, network failures). -/

structure Response where
  ok : Bool
  status : Nat
  statusText : String
  contentType : Option String
  body : String
deriving DecidableEq, Repr

inductive FetchOutcome where
  | resp (r : Response)
  | err (msg : String)
deriving DecidableEq, Repr

/-- The fixed, ordered proxy-prefix list of `tvService.ts`. -/
def PROXY_URLS : List String :=
  ["https://corsproxy.io/?", "https://cors.eu.org/", "https://thingproxy.freeboard.io/fetch/"]

/-- Whether one candidate attempt succeeded: a response arrived and its
`ok` flag (2xx status) is set.  A thrown error or a non-2xx response is a
failure for that candidate. -/
def attemptOk (o : FetchOutcome) : Bool :=
  match o with
  | .resp r => r.ok
  | .err _ => false

/-- The error message recorded for a failing proxy candidate: for a non-2xx
response, the message of the `Error` thrown inside the loop body; for a
transport failure, the thrown error's own message. -/
def candErrMsg (net : String → FetchOutcome) (u : String) : String :=
  match net u with
  | .resp r => "Request failed with status " ++ toString r.status ++ " for " ++ u
  | .err m => m

/-- The error message recorded when the final direct attempt fails (the
direct attempt's non-2xx message omits the URL). -/
def directErrMsg (net : String → FetchOutcome) (u : String) : String :=
  match net u with
  | .resp r => "Direct request failed with status " ++ toString r.status
  | .err m => m

/-- The proxy loop of `resilientFetch` (lines 78–92): try each proxy prefix
in order, returning the first `ok` response; a failing candidate records
its error message in `lastError`.  Returns the response (if any), the
final `lastError`, and the ordered list of URLs requested. -/
def proxyLoop (net : String → FetchOutcome) (url : String) :
    List String → Option String → Option Response × Option String × List String
  | [], le => (none, le, [])
  | p :: ps, le =>
    let proxyUrl := p ++ url
    match net proxyUrl with
    | .resp r =>
      if r.ok then (some r, le, [proxyUrl])
      else
        let m := "Request failed with status " ++ toString r.status ++ " for " ++ proxyUrl
        let rec' := proxyLoop net url ps (some m)
        (rec'.1, rec'.2.1, proxyUrl :: rec'.2.2)
    | .err m =>
      let rec' := proxyLoop net url ps (some m)
      (rec'.1, rec'.2.1, proxyUrl :: rec'.2.2)

/-- The aggregated error built at lines 105–110 when the direct fallback
also fails: if some proxy had failed before, its message and the direct
failure's message are combined; otherwise the direct error stands alone. -/
def aggMsg (lastError : Option String) (direct : String) : String :=
  match lastError with
  | some le =>
    "All proxies failed. Last error: " ++ le ++
      ". Direct connection also failed with message: \"" ++ direct ++ "\""
  | none => direct

/-- Shallow embedding of `resilientFetch` (lines 71–115).  The first
component is the returned response or the message of the error finally
thrown; the second component is the ordered trace of every URL requested
(instrumentation for stating which candidates were contacted; the source
returns only the response). -/
def resilientFetch (net : String → FetchOutcome) (url : String) :
    Except String Response × List String :=
  match proxyLoop net url PROXY_URLS none with
  | (some r, _, tr) => (Except.ok r, tr)
  | (none, lastError, tr) =>
    match net url with
    | .resp r =>
      if r.ok then (Except.ok r, tr ++ [url])
      else
        (Except.error (aggMsg lastError ("Direct request failed with status " ++ toString r.status)),
          tr ++ [url])
    | .err m => (Except.error (aggMsg lastError m), tr ++ [url])

/-- The full candidate list of one `resilientFetch` call: the three
proxy-wrapped URLs in declared order, then the bare URL (direct attempt). -/
def candidates (url : String) : List String :=
  PROXY_URLS.map (fun p => p ++ url) ++ [url]

/-- The `i`-th candidate URL. -/
def candAt (url : String) (i : Nat) : String := (candidates url).getD i ""

/-! ## EpgIngestor (`src/services/tvService.ts`, `parseEpgDate` / `fetchEpg`)

`parseEpgDate` slices the `YYYYMMDDHHmmss ±HHMM` string into components,
assembles an ISO-8601 string and hands it to the host `Date` constructor.
The constructor is modelled by `jsDateOfEpgSlices`: an invalid date is
`none`, a valid one is its epoch-second instant (`JSDate := Option Int`).
Note the source returns the `Date` object even when it is invalid (an
Invalid Date object is truthy); only an input shorter than 20 characters
makes `parseEpgDate` return `null`. -/

/-- A JavaScript `Date` value: `none` models Invalid Date, `some t` a
valid instant `t` in epoch seconds. -/
abbrev JSDate := Option Int

/-- Numeric value of a fixed-width all-digit character list, `none` if the
length is wrong or any character is not a decimal digit. -/
def digitsVal? (cs : List Char) (width : Nat) : Option Nat :=
  if cs.length = width ∧ cs.all (fun c => '0' ≤ c && c ≤ '9') then
    some (cs.foldl (fun acc c => acc * 10 + (c.toNat - '0'.toNat)) 0)
  else none

/-- Gregorian leap-year test. -/
def isLeapYear (y : Nat) : Bool := y % 4 = 0 && (y % 100 ≠ 0 || y % 400 = 0)

/-- Days in a month (1-based month). -/
def daysInMonth (y m : Nat) : Nat :=
  if m = 2 then (if isLeapYear y then 29 else 28)
  else if m = 4 ∨ m = 6 ∨ m = 9 ∨ m = 11 then 30 else 31

/-- Days since 1970-01-01 of a civil date (standard civil-from-days
inverse; `/` on `Int` is floor division for the positive divisors used
here). -/
def daysFromCivil (y : Int) (m d : Nat) : Int :=
  let y2 : Int := if m ≤ 2 then y - 1 else y
  let era : Int := y2 / 400
  let yoe : Int := y2 - era * 400
  let mp : Nat := (m + 9) % 12
  let doy : Int := (153 * (mp : Int) + 2) / 5 + (d : Int) - 1
  let doe : Int := yoe * 365 + yoe / 4 - yoe / 100 + doy
  era * 146097 + doe - 719468

/-- Model of `new Date(isoDateStr)` for the ISO string that `parseEpgDate`
assembles from its input's slices (`year`-`month`-`day`T`hour`:`minute`:
`second` followed by the reformatted `±HH:MM` offset).  All components
must be decimal digits of the sliced widths, the offset must carry a sign,
and the calendar/clock fields must be in range, otherwise the constructor
yields Invalid Date (`none`); a valid string denotes the epoch-second
instant of the named wall-clock time minus the UTC offset. -/
def jsDateOfEpgSlices (s : String) : JSDate :=
  let cs := s.data
  let tz := cs.drop 15
  match digitsVal? (cs.take 4) 4, digitsVal? ((cs.drop 4).take 2) 2,
      digitsVal? ((cs.drop 6).take 2) 2, digitsVal? ((cs.drop 8).take 2) 2,
      digitsVal? ((cs.drop 10).take 2) 2, digitsVal? ((cs.drop 12).take 2) 2,
      tz.head?, digitsVal? ((tz.drop 1).take 2) 2, digitsVal? ((tz.drop 3).take 2) 2 with
  | some y, some mo, some d, some h, some mi, some sec, some sgn, some tzh, some tzm =>
    if (sgn = '+' ∨ sgn = '-') ∧ 1 ≤ mo ∧ mo ≤ 12 ∧ 1 ≤ d ∧ d ≤ daysInMonth y mo ∧
        h ≤ 23 ∧ mi ≤ 59 ∧ sec ≤ 59 ∧ tzh ≤ 23 ∧ tzm ≤ 59 then
      let wall : Int := daysFromCivil (y : Int) mo d * 86400 + h * 3600 + mi * 60 + sec
      let off : Int := (tzh : Int) * 3600 + (tzm : Int) * 60
      some (if sgn = '+' then wall - off else wall + off)
    else none
  | _, _, _, _, _, _, _, _, _ => none

/-- Shallow embedding of `parseEpgDate` (tvService.ts lines 136–161): an
input shorter than 20 characters is rejected (`none`, the source's
`null`); otherwise the host `Date` built from the fixed slices is
returned — even when that date is invalid. -/
def parseEpgDate (dateStr : String) : Option JSDate :=
  if dateStr.length < 20 then none
  else some (jsDateOfEpgSlices dateStr)

/-- One `<programme>` DOM element, restricted to what `fetchEpg` reads.
`channel`, `start`, `stop` model `getAttribute` results (`none` = attribute
absent); the remaining fields model the text content / attribute of the
first matching descendant element (`none` = element absent). -/
structure ProgrammeNode where
  channel : Option String := none
  start : Option String := none
  stop : Option String := none
  title : Option String := none
  desc : Option String := none
  rating : Option String := none
  icon : Option String := none
  categories : List String := []
  date : Option String := none
  episodeNum : Option String := none
  isNew : Bool := false
  actors : List String := []
  country : Option String := none
  videoQuality : Option String := none
  audioOpt : Option String := none
  subtitles : Option String := none
  starRating : Option String := none
deriving DecidableEq, Repr

/-- A `Programme` record as built by `fetchEpg` (the `audioOpt` field
embeds the source's `audio` property). -/
structure Programme where
  channelId : String
  start : JSDate
  stop : JSDate
  title : String
  description : String
  rating : Option String
  icon : Option String
  categories : List String
  date : Option String
  episodeNum : Option String
  isNew : Bool
  actors : List String
  country : Option String
  videoQuality : Option String
  audioOpt : Option String
  subtitles : Option String
  starRating : Option String
deriving DecidableEq, Repr

/-- JavaScript falsiness of a nullable string (`null`/absent and `""` are
falsy). -/
def falsyO (o : Option String) : Bool :=
  match o with
  | none => true
  | some s => s = ""

/-- Model of `x?.textContent || 'default'`. -/
def orDefault (o : Option String) (d : String) : String :=
  match o with
  | some s => if s = "" then d else s
  | none => d

/-- Model of `x?.textContent || undefined` (an empty string collapses to
`undefined`). -/
def orUndef (o : Option String) : Option String :=
  match o with
  | some s => if s = "" then none else some s
  | none => none

/-- The per-element body of `fetchEpg`'s loop (lines 346–405): `none` when
the element is skipped (missing/empty `channel`, `start` or `stop`
attribute, or a start/stop string shorter than 20 characters), otherwise
the constructed `Programme`. -/
def toProgramme (node : ProgrammeNode) : Option Programme :=
  if falsyO node.channel || falsyO node.start || falsyO node.stop then none
  else
    match parseEpgDate (node.start.getD ""), parseEpgDate (node.stop.getD "") with
    | some start, some stop =>
      some { channelId := node.channel.getD ""
             start := start
             stop := stop
             title := orDefault node.title "No Title"
             description := orDefault node.desc "No Description"
             rating := orUndef node.rating
             icon := orUndef node.icon
             categories := node.categories.filter (fun s => s ≠ "")
             date := orUndef node.date
             episodeNum := orUndef node.episodeNum
             isNew := node.isNew
             actors := node.actors.filter (fun s => s ≠ "")
             country := orUndef node.country
             videoQuality := orUndef node.videoQuality
             audioOpt := orUndef node.audioOpt
             subtitles := orUndef node.subtitles
             starRating := orUndef node.starRating }
    | _, _ => none

/-- The `EpgData` map, modelled as an insertion-ordered association list
(JavaScript `Map` keeps keys in first-insertion order). -/
abbrev EpgData := List (String × List Programme)

/-- Model of `epgData.get(channelId)?.push(programme)` preceded by
`if (!epgData.has(channelId)) epgData.set(channelId, [])`: append the
programme to its channel's list, creating the key at the end on first
sight. -/
def epgInsert (m : EpgData) (c : String) (p : Programme) : EpgData :=
  match m with
  | [] => [(c, [p])]
  | (k, ps) :: rest =>
    if k = c then (k, ps ++ [p]) :: rest else (k, ps) :: epgInsert rest c p

/-- One iteration of `fetchEpg`'s loop: skip a malformed element, append a
well-formed one to its channel's list. -/
def epgStep (acc : EpgData) (node : ProgrammeNode) : EpgData :=
  match toProgramme node with
  | none => acc
  | some p => epgInsert acc p.channelId p

/-- Shallow embedding of the parsing loop of `fetchEpg` (lines 340–414):
fold over the `<programme>` elements in document order, skipping malformed
ones and appending the rest to their channel's list. -/
def fetchEpg (nodes : List ProgrammeNode) : EpgData :=
  nodes.foldl epgStep []

/-- Lookup in the EPG map, with `[]` for an absent channel. -/
def epgGetD (m : EpgData) (k : String) : List Programme :=
  match m with
  | [] => []
  | (k', ps) :: rest => if k' = k then ps else epgGetD rest k

/-- Chronological comparison of two `JSDate`s, vacuously true when either
is Invalid. -/
def jsDateLeb (a b : JSDate) : Bool :=
  match a, b with
  | some x, some y => x ≤ y
  | _, _ => true

/-- The list of programmes is sorted by start time ascending. -/
def startsSorted : List Programme → Bool
  | [] => true
  | [_] => true
  | p :: q :: rest => jsDateLeb p.start q.start && startsSorted (q :: rest)

/-- Every per-channel programme list of the index is sorted by start time
ascending. -/
def epgSortedByStart (m : EpgData) : Bool := m.all (fun kv => startsSorted kv.2)

/-- Concrete `<programme>` element whose start lies at 10:00 NZT. -/
def nodeLate : ProgrammeNode :=
  { channel := some "mjh-tvnz-1", start := some "20240728100000 +1200",
    stop := some "20240728110000 +1200", title := some "Late Show" }

/-- Concrete `<programme>` element whose start lies at 09:00 NZT, placed
after `nodeLate` in document order. -/
def nodeEarly : ProgrammeNode :=
  { channel := some "mjh-tvnz-1", start := some "20240728090000 +1200",
    stop := some "20240728100000 +1200", title := some "Early Show" }

/-- Concrete `<programme>` element with no `stop` attribute. -/
def nodeMissingStop : ProgrammeNode :=
  { channel := some "mjh-tvnz-1", start := some "20240728080000 +1200",
    stop := none, title := some "Broken" }

/-- Concrete well-formed `<programme>` element. -/
def nodeGood : ProgrammeNode :=
  { channel := some "mjh-tvnz-1", start := some "20240728120000 +1200",
    stop := some "20240728130000 +1200", title := some "Good Show" }

/-! ## ChannelCatalogNormalizer (`src/services/tvService.ts`, `fetchChannels`)

A `ChanObj` models one JavaScript channel object: every property the code
reads or writes is an optional field (absent property = `none`).  Header
maps are association lists in property order.  The three accepted JSON
shapes of the directory are the constructors of `ChannelDir`; anything
else (`null`, numbers, strings) is `other`, for which `fetchChannels`
returns `[]`.  The host `localeCompare` is passed in as an explicit
comparison function `lc`. -/

structure ChanObj where
  id : Option String := none
  name : Option String := none
  logo : Option String := none
  url : Option String := none
  epg_id : Option String := none
  mjh_master : Option String := none
  network : Option String := none
  category : Option String := none
  headers : Option (List (String × String)) := none
  needsProxy : Option Bool := none
deriving DecidableEq, Repr

/-- JavaScript truthiness of an optional string property. -/
def truthy (o : Option String) : Bool :=
  match o with
  | none => false
  | some s => s ≠ ""

/-- The keep-filter of the array-shaped cases (lines 205 and 211):
`c.name && c.logo && c.url && c.epg_id`. -/
def chanKeep (c : ChanObj) : Bool :=
  truthy c.name && truthy c.logo && truthy c.url && truthy c.epg_id

/-- The fixed priority list of `tvService.ts` (lines 121–134). -/
def PRIORITY_CHANNELS : List String :=
  ["TVNZ 1", "TVNZ 2", "Three", "Bravo", "Whakaata Māori", "Sky Open",
   "TVNZ Duke", "Eden", "Te Reo", "Rush", "Al Jazeera", "HGTV"]

/-- Embedding of `getPriorityIndex` (lines 286–300): first index whose lower-cased
priority name is a prefix of the lower-cased channel name; otherwise the
special `DUKE` case maps to the `TVNZ Duke` slot; otherwise the list
length (sorts after every priority channel). -/
def getPriorityIndex (name : String) : Nat :=
  let lower := strToLower name
  match PRIORITY_CHANNELS.findIdx? (fun p => strStartsWith lower (strToLower p)) with
  | some i => i
  | none =>
    if strStartsWith lower "duke" then
      match PRIORITY_CHANNELS.findIdx? (fun p => strToLower p == "tvnz duke") with
      | some j => j
      | none => PRIORITY_CHANNELS.length
    else PRIORITY_CHANNELS.length

/-- The sort comparator of lines 285–311, on channel names; `lc` models
`a.localeCompare(b)`. -/
def channelNameCompare (lc : String → String → Int) (a b : String) : Int :=
  let pa := getPriorityIndex a
  let pb := getPriorityIndex b
  if pa ≠ pb then (pa : Int) - (pb : Int) else lc a b

/-- The comparator applied to channel objects (`a.name` vs `b.name`; the
keyed branch always constructs channels with a name present). -/
def channelCompare (lc : String → String → Int) (a b : ChanObj) : Int :=
  channelNameCompare lc (a.name.getD "") (b.name.getD "")

/-- Stable insertion of `x` into a list ordered by the comparator: `x`
goes after every element comparing `≤ 0` against it (models the stable
host `Array.prototype.sort`). -/
def insertCmp (cmp : ChanObj → ChanObj → Int) (x : ChanObj) : List ChanObj → List ChanObj
  | [] => [x]
  | y :: ys => if cmp y x ≤ 0 then y :: insertCmp cmp x ys else x :: y :: ys

/-- Stable comparator sort (models the host `Array.prototype.sort`, which
is specified stable and consistent with the comparator). -/
def sortCmp (cmp : ChanObj → ChanObj → Int) (l : List ChanObj) : List ChanObj :=
  l.foldl (fun acc x => insertCmp cmp x acc) []

/-- Embedding of `categorizeChannel` (lines 163–193). -/
def categorizeChannel (cd : ChanObj) : String :=
  let name := cd.name.getD ""
  let network := cd.network.getD ""
  if ["Sport", "Trackside", "Redbull", "SailGP", "MotoGP", "Sky Open"].any
      (fun k => strContains name k) then "Sports"
  else if ["News", "Al Jazeera", "CNN", "DW English", "Parliament TV"].any
      (fun k => strContains name k) then "News"
  else if ["Shine", "Hope Channel", "Firstlight"].any
      (fun k => strContains name k) then "Religious"
  else if network ∈ ["TVNZ", "Discovery", "Māori"] then "New Zealand"
  else if ["Whakaata Māori", "Te Reo", "Three", "eden", "DUKE", "RUSH", "Bravo", "Wairarapa TV"].any
      (fun p => strStartsWith name p) then "New Zealand"
  else "International"

/-- Property lookup in a header map. -/
def headerGet (hs : List (String × String)) (k : String) : Option String :=
  match hs.find? (fun kv => kv.1 = k) with
  | some kv => some kv.2
  | none => none

/-- Model of `delete headers[k]` on the object model (object keys are unique). -/
def headerDelete (hs : List (String × String)) (k : String) : List (String × String) :=
  hs.filter (fun kv => kv.1 ≠ k)

/-- The Apple-TV user-agent string stripped at lines 250–259. -/
def appleTvUA : String :=
  "otg/1.5.1 (AppleTv Apple TV 4; tvOS16.0; appletv.client) libcurl/7.58.0 OpenSSL/1.0.2o zlib/1.2.11 clib/1.8.56"

/-- The header quirk fixes of the keyed branch (lines 243–259): drop a
referer that is a single space, drop the Apple-TV user-agent (the source
repeats the user-agent removal twice; the second application is a no-op,
so one application is equivalent). -/
def stripHeaders (hs : List (String × String)) : List (String × String) :=
  let hs1 := if headerGet hs "referer" = some " " then headerDelete hs "referer" else hs
  if headerGet hs1 "user-agent" = some appleTvUA then headerDelete hs1 "user-agent" else hs1

/-- The per-entry mapper of the keyed-object branch (lines 217–281):
`none` when a required property is missing, otherwise the constructed
`Channel` with category, proxy tagging and header fixes applied. -/
def keyedChannel (id : String) (cd : ChanObj) : Option ChanObj :=
  if truthy cd.name && truthy cd.logo && truthy cd.mjh_master && truthy cd.epg_id then
    let channel : ChanObj :=
      { id := some id, name := cd.name, logo := cd.logo, url := cd.mjh_master,
        epg_id := cd.epg_id, network := cd.network,
        category := some (categorizeChannel cd), headers := cd.headers }
    let c1 := if id ∈ ["mjh-maori-tv", "mjh-te-reo", "mjh-prime"] then
        { channel with needsProxy := some true } else channel
    let c2 := match c1.headers with
      | some hs => { c1 with headers := some (stripHeaders hs) }
      | none => c1
    let c3 := if strContains (cd.mjh_master.getD "") "prime.m3u8" then
        { c2 with needsProxy := some true } else c2
    some c3
  else none

/-- Parsed shapes of the channel-directory JSON document. -/
inductive ChannelDir where
  | jarr (cs : List ChanObj)
  | jobjChannels (cs : List ChanObj)
  | jobjKeyed (entries : List (String × ChanObj))
  | other
deriving Repr

/-- The pure body of `fetchChannels` (lines 200–316) after the JSON text
has been parsed into one of the accepted shapes: a bare array and a
`channels`-array object are filtered and returned as-is; a keyed object is
mapped through `keyedChannel` and sorted by the priority comparator;
anything else yields `[]`. -/
def processChannelData (lc : String → String → Int) : ChannelDir → List ChanObj
  | .jarr cs => cs.filter chanKeep
  | .jobjChannels cs => cs.filter chanKeep
  | .jobjKeyed entries =>
    sortCmp (channelCompare lc) (entries.filterMap (fun e => keyedChannel e.1 e.2))
  | .other => []

/-- The keyed-channel entries of the spec's sorting example, in catalog
(declaration) order `Three`, `Al Jazeera`, `TVNZ 1`. -/
def entryThree : String × ChanObj :=
  ("mjh-three",
    { name := some "Three", logo := some "logo-three",
      mjh_master := some "https://i.mjh.nz/three.m3u8", epg_id := some "epg-three" })

def entryAJ : String × ChanObj :=
  ("mjh-al-jazeera",
    { name := some "Al Jazeera", logo := some "logo-aj",
      mjh_master := some "https://i.mjh.nz/aj.m3u8", epg_id := some "epg-aj" })

def entryTVNZ1 : String × ChanObj :=
  ("mjh-tvnz-1",
    { name := some "TVNZ 1", logo := some "logo-tvnz1",
      mjh_master := some "https://i.mjh.nz/tvnz1.m3u8", epg_id := some "epg-tvnz1",
      network := some "TVNZ" })

/-- The keyed directory of the sorting example. -/
def exampleDir : ChannelDir := ChannelDir.jobjKeyed [entryThree, entryAJ, entryTVNZ1]

/-- The channel `keyedChannel` builds from `entryThree`. -/
def chanThree : ChanObj :=
  { id := some "mjh-three", name := some "Three", logo := some "logo-three",
    url := some "https://i.mjh.nz/three.m3u8", epg_id := some "epg-three",
    category := some "New Zealand" }

/-- The channel `keyedChannel` builds from `entryAJ`. -/
def chanAJ : ChanObj :=
  { id := some "mjh-al-jazeera", name := some "Al Jazeera", logo := some "logo-aj",
    url := some "https://i.mjh.nz/aj.m3u8", epg_id := some "epg-aj",
    category := some "News" }

/-- The channel `keyedChannel` builds from `entryTVNZ1`. -/
def chanTVNZ1 : ChanObj :=
  { id := some "mjh-tvnz-1", name := some "TVNZ 1", logo := some "logo-tvnz1",
    url := some "https://i.mjh.nz/tvnz1.m3u8", epg_id := some "epg-tvnz1",
    network := some "TVNZ", category := some "New Zealand" }

/-- Keyed entries whose names are `DUKE` and `Eden`. -/
def entryDuke : String × ChanObj :=
  ("mjh-duke",
    { name := some "DUKE", logo := some "logo-duke",
      mjh_master := some "https://i.mjh.nz/duke.m3u8", epg_id := some "epg-duke" })

def entryEden : String × ChanObj :=
  ("mjh-eden",
    { name := some "Eden", logo := some "logo-eden",
      mjh_master := some "https://i.mjh.nz/eden.m3u8", epg_id := some "epg-eden" })

/-- A raw directory entry with a quirky header map, used to show the
array-shaped branches apply no fixes. -/
def rawDirty : ChanObj :=
  { name := some "TVNZ 1", logo := some "logo-tvnz1", url := some "https://i.mjh.nz/tvnz1.m3u8",
    epg_id := some "epg-tvnz1", headers := some [("referer", " ")] }

/-- A raw directory entry that sorts before `rawDirty` only in source
order, not in priority order. -/
def rawEden : ChanObj :=
  { name := some "Eden", logo := some "logo-eden", url := some "https://i.mjh.nz/eden.m3u8",
    epg_id := some "epg-eden" }

/-! ## StreamProxyGateway

Three handlers exist in the repository: the express server of
`src/server.js`, the serverless handler of `src/api/stream-proxy.ts`, and
the express handler of `src/unnamed/part_002`.  Each is embedded as a
function from the upstream oracle and the `url` query parameter (`none` =
absent) to the status/body pair sent to the client. -/

/-- Embedding of `targetUrl.substring(0, targetUrl.lastIndexOf('/') + 1)` (server.js
line 33); also models `new URL('.', targetUrl).href` of stream-proxy.ts
line 37 for the path-bearing http(s) URLs this gateway serves. -/
def baseUrlOf (u : String) : String :=
  String.mk ((u.data.reverse.dropWhile (fun c => c ≠ '/')).reverse)

/-- The `scheme://host` origin of an http(s) URL (used to model `new URL` resolution
of root-relative references). -/
def urlOrigin (u : String) : String :=
  let cs := u.data
  let scheme := cs.takeWhile (fun c => c ≠ ':')
  let rest := cs.drop (scheme.length + 3)
  let host := rest.takeWhile (fun c => c ≠ '/')
  String.mk (scheme ++ ':' :: '/' :: '/' :: host)

/-- Model of the host WHATWG resolution `new URL(rel, base).href` for the
reference kinds an HLS manifest line can carry against a directory base
URL: an absolute `http(s)` reference stands alone, a root-relative
reference joins the base's origin, any other relative path joins the
base's directory (dot-segment normalisation and extra escaping do not
arise for the segment names exercised here). -/
def urlResolve (rel base : String) : String :=
  if strStartsWith rel "http" then rel
  else if strStartsWith rel "/" then urlOrigin base ++ rel
  else baseUrlOf base ++ rel

/-- The `http://localhost:${port}/stream-proxy?url=` prefix of server.js
(port 3001). -/
def SERVER_GATEWAY : String := "http://localhost:3001/stream-proxy?url="

/-- The media-file extensions of the line regex of server.js line 44. -/
def MEDIA_EXTS : List String := ["ts", "aac", "mp4", "m4s", "m3u8"]

/-- Whether `\.(?:ts|aac|mp4|m4s|m3u8)(?:\?.*)?$` matches starting at this
position: a dot, one of the extensions, then end of line or a query
string. -/
def mediaExtAt : List Char → Bool
  | '.' :: t =>
    MEDIA_EXTS.any (fun e =>
      e.data.isPrefixOf t &&
        (let u := t.drop e.data.length
         u.isEmpty || u.head? = some '?'))
  | _ => false

/-- Whether a media-extension occurrence exists at any position of the
scanned tail (the regex backtracks `.*` over every position). -/
def hasMediaExt (cs : List Char) : Bool :=
  mediaExtAt cs ||
    (match cs with
     | [] => false
     | _ :: rest => hasMediaExt rest)

/-- Whether the per-line regex `^[^#].*\.(?:ts|aac|mp4|m4s|m3u8)(?:\?.*)?$`
of server.js line 44 matches the line: a first character other than `#`,
then an extension occurrence at some position ≥ 1. -/
def matchesMedia (cs : List Char) : Bool :=
  match cs with
  | [] => false
  | c :: rest => c ≠ '#' && hasMediaExt rest

/-- The text inserted at each `URI=` occurrence by the replacement of
server.js lines 37–43.  The regex
`(URI=)(["']?)([^"'\s,]*?)(["']?)` has a *lazy* third group followed only
by optional single-character groups, so every match captures `p3 = ""`
(the engine never needs to grow the lazy group): the matched text is
`URI=` plus, when present, one following quote, and the callback emits
`p1 ++ p2 ++ proxiedUrl ++ p4` with
`proxiedUrl = SERVER_GATEWAY ++ encodeURIComponent(baseUrl ++ "")`.
The original URI text after the quote is left in place behind the
inserted prefix. -/
def uriIns (base : String) : String := SERVER_GATEWAY ++ encodeURIComponent base

/-- The global `URI=` replacement of server.js line 37 on a line's
characters: after each `URI=` (and one following quote, if any) the
`uriIns` text is inserted; scanning resumes after the match, so inserted
text is never rescanned. -/
def uriReplaceChars (ins : List Char) : List Char → List Char
  | 'U' :: 'R' :: 'I' :: '=' :: c :: rest =>
    if c = dquote ∨ c = squote then
      'U' :: 'R' :: 'I' :: '=' :: c :: (ins ++ uriReplaceChars ins rest)
    else
      'U' :: 'R' :: 'I' :: '=' :: (ins ++ uriReplaceChars ins (c :: rest))
  | 'U' :: 'R' :: 'I' :: '=' :: [] => 'U' :: 'R' :: 'I' :: '=' :: ins
  | c :: rest => c :: uriReplaceChars ins rest
  | [] => []

/-- The media-line replacement of server.js lines 44–50: a matching line
that is not already absolute is replaced by the gateway URL wrapping the
percent-encoded concatenation of the base URL and the line. -/
def mediaLineReplace (base l : String) : String :=
  if matchesMedia l.data then
    if strStartsWith l "http" then l
    else SERVER_GATEWAY ++ encodeURIComponent (base ++ l)
  else l

/-- One line of the server.js manifest rewrite: the `URI=` replacement
runs over the whole text first (it cannot match across newlines, so it is
per-line), then the media-line replacement. -/
def serverRewriteLine (base l : String) : String :=
  mediaLineReplace base (String.mk (uriReplaceChars (uriIns base).data l.data))

/-- Split into lines at `\n` (model of the per-line `m`-flag regex and of
`split('\n')`). -/
def splitLinesAux : List Char → List (List Char)
  | [] => [[]]
  | '\n' :: rest => [] :: splitLinesAux rest
  | c :: rest =>
    match splitLinesAux rest with
    | l :: ls => (c :: l) :: ls
    | [] => [[c]]

def strSplitLines (s : String) : List String := (splitLinesAux s.data).map String.mk

def strJoinLines (ls : List String) : String :=
  String.mk (List.intercalate ['\n'] (ls.map String.data))

/-- The whole manifest rewrite of server.js lines 36–50. -/
def serverRewriteManifest (targetUrl content : String) : String :=
  strJoinLines ((strSplitLines content).map (serverRewriteLine (baseUrlOf targetUrl)))

/-- One line of the stream-proxy.ts manifest rewrite (lines 39–44): a line
with non-blank trim that starts with neither `#` nor `http` is replaced by
its resolution against the manifest's base URL — it is *not* wrapped in a
gateway URL; every other line passes through. -/
def vercelRewriteLine (manifestBase l : String) : String :=
  if (strTrim l).length != 0 && !strStartsWith l "#" && !strStartsWith l "http" then
    urlResolve l manifestBase
  else l

/-- The manifest base URL of stream-proxy.ts lines 36–37
(`new URL('.', new URL(targetUrl)).href`): the target's directory. -/
def vercelManifestBase (targetUrl : String) : String := baseUrlOf targetUrl

/-- The whole manifest rewrite of stream-proxy.ts lines 39–44. -/
def vercelRewriteManifest (targetUrl content : String) : String :=
  strJoinLines ((strSplitLines content).map (vercelRewriteLine (vercelManifestBase targetUrl)))

/-- The status/body pair a handler sends to the client. -/
structure ClientResponse where
  status : Nat
  body : String
deriving DecidableEq, Repr

/-- Model of `contentType && contentType.includes(s)` on a nullable content type. -/
def ctIncludes (ct : Option String) (s : String) : Bool :=
  match ct with
  | some c => strContains c s
  | none => false

/-- The express handler of `src/server.js` (lines 10–63).  The `url`
query parameter is first passed through `String(...)` — an absent
parameter becomes the literal string `"undefined"`, which is non-empty, so
the `if (!targetUrl)` 400-guard can never fire for an absent parameter —
and then through `decodeURIComponent`.  A thrown fetch is answered 500
with the error message, a non-2xx upstream response is echoed with its
status and status text, and an `ok` response is sent through (manifests
rewritten). -/
def serverHandler (net : String → FetchOutcome) (urlParam : Option String) : ClientResponse :=
  let targetUrl := decodeURIComponentJS (jsStringCoerce urlParam)
  if targetUrl = "" then ⟨400, "URL is required"⟩
  else
    match net targetUrl with
    | .err m => ⟨500, m⟩
    | .resp r =>
      if !r.ok then ⟨r.status, r.statusText⟩
      else if ctIncludes r.contentType "application/vnd.apple.mpegurl" ||
          strEndsWith targetUrl ".m3u8" then
        ⟨200, serverRewriteManifest targetUrl r.body⟩
      else ⟨200, r.body⟩

/-- The serverless handler of `src/api/stream-proxy.ts` (lines 3–76):
400 when `url` is absent or empty, 500 with a prefixed message on a thrown
fetch, upstream status echoed for non-2xx, manifests rewritten when the
content type declares HLS. -/
def vercelHandler (net : String → FetchOutcome) (urlParam : Option String) : ClientResponse :=
  match urlParam with
  | none => ⟨400, "Missing or invalid \"url\" query parameter."⟩
  | some u =>
    if u = "" then ⟨400, "Missing or invalid \"url\" query parameter."⟩
    else
      let targetUrl := decodeURIComponentJS u
      match net targetUrl with
      | .err m => ⟨500, "Proxy error: " ++ m⟩
      | .resp r =>
        if !r.ok then ⟨r.status, r.statusText⟩
        else if ctIncludes r.contentType "application/vnd.apple.mpegurl" ||
            ctIncludes r.contentType "application/x-mpegurl" then
          ⟨200, vercelRewriteManifest targetUrl r.body⟩
        else ⟨200, r.body⟩

/-- The express handler of `src/unnamed/part_002`: 400 when `url` is
absent or empty; a non-2xx upstream response makes the handler *throw*
(`Upstream server responded with N`), and the catch block answers 500 with
`Proxy error: ` plus the thrown message — the upstream status code is not
echoed.  On an `ok` response the handler's final
`if (contentType && ...)` reads the identifier `contentType`, which was
declared with `let` inside the earlier `if (!res.getHeader(...))` block
and is out of scope there, so evaluation throws a `ReferenceError`
(`contentType is not defined`) that the same catch turns into a 500. -/
def part002Handler (net : String → FetchOutcome) (urlParam : Option String) : ClientResponse :=
  match urlParam with
  | none => ⟨400, "Missing url parameter"⟩
  | some t =>
    if t = "" then ⟨400, "Missing url parameter"⟩
    else
      match net t with
      | .err m => ⟨500, "Proxy error: " ++ m⟩
      | .resp r =>
        if !r.ok then
          ⟨500, "Proxy error: Upstream server responded with " ++ toString r.status⟩
        else ⟨500, "Proxy error: contentType is not defined"⟩

/-- A canonical successful (2xx) response, used by witnesses. -/
def respOk : Response := ⟨true, 200, "OK", none, "body"⟩

/-- A canonical non-2xx response, used by witnesses and counterexamples. -/
def resp404 : Response := ⟨false, 404, "Not Found", none, ""⟩

/-! ## Lemmas and claim theorems -/

lemma proxyLoop_cons_succ (net : String → FetchOutcome) (url p : String)
    (ps : List String) (le : Option String) (r : Response)
    (h : net (p ++ url) = .resp r) (hok : r.ok = true) :
    proxyLoop net url (p :: ps) le = (some r, le, [p ++ url]) := by
  simp [proxyLoop, h, hok]

lemma proxyLoop_cons_fail (net : String → FetchOutcome) (url p : String)
    (ps : List String) (le : Option String)
    (h : attemptOk (net (p ++ url)) = false) :
    proxyLoop net url (p :: ps) le =
      ((proxyLoop net url ps (some (candErrMsg net (p ++ url)))).1,
       (proxyLoop net url ps (some (candErrMsg net (p ++ url)))).2.1,
       (p ++ url) :: (proxyLoop net url ps (some (candErrMsg net (p ++ url)))).2.2) := by
  cases hn : net (p ++ url) with
  | resp r =>
    have hok : r.ok = false := by simpa [attemptOk, hn] using h
    simp [proxyLoop, hn, hok, candErrMsg]
  | err m => simp [proxyLoop, hn, candErrMsg]

lemma proxyLoop_some_ok (net : String → FetchOutcome) (url : String) :
    ∀ (ps : List String) (le : Option String) (r : Response),
      (proxyLoop net url ps le).1 = some r → r.ok = true := by
  intro ps
  induction ps with
  | nil => intro le r h; simp [proxyLoop] at h
  | cons p ps ih =>
    intro le r h
    cases hn : net (p ++ url) with
    | resp r' =>
      by_cases hok : r'.ok = true
      · simp [proxyLoop, hn, hok] at h
        exact h ▸ hok
      · simp [proxyLoop, hn, hok] at h
        exact ih _ _ h
    | err m =>
      simp [proxyLoop, hn] at h
      exact ih _ _ h

lemma proxyLoop_trace_head (net : String → FetchOutcome) (url p : String)
    (ps : List String) (le : Option String) :
    (p ++ url) ∈ (proxyLoop net url (p :: ps) le).2.2 := by
  cases hn : net (p ++ url) with
  | resp r => by_cases hok : r.ok = true <;> simp [proxyLoop, hn, hok]
  | err m => simp [proxyLoop, hn]

lemma mem_resilientFetch_trace (net : String → FetchOutcome) (url x : String)
    (h : x ∈ (proxyLoop net url PROXY_URLS none).2.2) :
    x ∈ (resilientFetch net url).2 := by
  unfold resilientFetch
  rcases hp : proxyLoop net url PROXY_URLS none with ⟨res, le, tr⟩
  rw [hp] at h
  cases res with
  | some r => simpa using h
  | none =>
    cases hn : net url with
    | resp r =>
      by_cases hok : r.ok = true <;>
        simp_all [List.mem_append]
    | err m => simp_all [List.mem_append]

lemma epgGetD_insert (c : String) (p : Programme) (k : String) :
    ∀ m : EpgData, epgGetD (epgInsert m c p) k =
      epgGetD m k ++ (if k = c then [p] else []) := by
  intro m
  induction m with
  | nil =>
    by_cases h : k = c
    · subst h; simp [epgInsert, epgGetD]
    · have h2 : ¬ c = k := fun h' => h h'.symm
      simp [epgInsert, epgGetD, h, h2]
  | cons kv rest ih =>
    rcases kv with ⟨k', ps⟩
    by_cases hk : k' = c
    · subst hk
      by_cases hkk : k' = k
      · subst hkk; simp [epgInsert, epgGetD]
      · have hkk2 : ¬ k = k' := fun h' => hkk h'.symm
        simp [epgInsert, epgGetD, hkk, hkk2]
    · by_cases hkk : k' = k
      · subst hkk
        simp [epgInsert, epgGetD, hk]
      · simp [epgInsert, epgGetD, hk, hkk, ih]

lemma fetchEpg_foldl_getD (k : String) :
    ∀ (nodes : List ProgrammeNode) (acc : EpgData),
      epgGetD (nodes.foldl epgStep acc) k =
        epgGetD acc k ++ (nodes.filterMap toProgramme).filter (fun p => p.channelId == k) := by
  intro nodes
  induction nodes with
  | nil => intro acc; simp
  | cons n ns ih =>
    intro acc
    cases h : toProgramme n with
    | none => simp [epgStep, h, ih]
    | some p =>
      by_cases hpk : p.channelId = k
      · simp [epgStep, h, ih, epgGetD_insert, hpk]
      · have hpk2 : ¬ k = p.channelId := fun h' => hpk h'.symm
        simp [epgStep, h, ih, epgGetD_insert, hpk, hpk2]

/-- C2 (counterexample): `fetchEpg` performs no sort — two well-formed
elements for one channel arriving latest-first stay in source order, so
the per-channel list is not sorted by start time ascending. -/
theorem fetchEpg_not_sorted_counterexample :
    epgSortedByStart (fetchEpg [nodeLate, nodeEarly]) = false := by decide

/-- C2 (amended): after `fetchEpg` processes all programme elements, each
channel's list holds exactly that channel's well-formed programmes in
source-document order; no sorting by start time is applied, so the list is
ascending only when the source order already was. -/
theorem fetchEpg_source_order (nodes : List ProgrammeNode) (k : String) :
    epgGetD (fetchEpg nodes) k =
      (nodes.filterMap toProgramme).filter (fun p => p.channelId == k) := by
  have := fetchEpg_foldl_getD k nodes []
  simpa [fetchEpg, epgGetD] using this

/-- C4: an element missing `channel`, `start` or `stop`, or whose start or
stop string is shorter than 20 characters, is excluded from the index and
parsing continues with the remaining elements; concretely, for a first
element missing `stop` followed by a well-formed one, the index holds
exactly the second element's programme. -/
theorem fetchEpg_skips_malformed :
    (∀ (node : ProgrammeNode) (rest : List ProgrammeNode),
        (node.channel = none ∨ node.start = none ∨ node.stop = none ∨
         (∃ s, node.start = some s ∧ s.length < 20) ∨
         (∃ s, node.stop = some s ∧ s.length < 20)) →
        fetchEpg (node :: rest) = fetchEpg rest) ∧
    (fetchEpg [nodeMissingStop, nodeGood] =
        [("mjh-tvnz-1", (toProgramme nodeGood).toList)] ∧
      (toProgramme nodeGood).isSome = true) := by
  constructor
  · intro node rest h
    have hnone : toProgramme node = none := by
      by_cases hf : (falsyO node.channel || falsyO node.start || falsyO node.stop) = true
      · simp [toProgramme, hf]
      · rcases h with h | h | h | ⟨s, hs, hlen⟩ | ⟨s, hs, hlen⟩
        · exact absurd (by simp [falsyO, h]) hf
        · exact absurd (by simp [falsyO, h]) hf
        · exact absurd (by simp [falsyO, h]) hf
        · have hpd : parseEpgDate (node.start.getD "") = none := by
            simp [hs, parseEpgDate, hlen]
          simp [toProgramme, hf, hpd]
        · have hpd : parseEpgDate (node.stop.getD "") = none := by
            simp [hs, parseEpgDate, hlen]
          simp [toProgramme, hf, hpd]
    simp [fetchEpg, epgStep, hnone]
  · exact ⟨by decide, by decide⟩

/-- Witness for C4: the element with no `stop` is dropped and the fold
continues exactly as if it were absent. -/
theorem fetchEpg_skips_malformed_witness :
    fetchEpg [nodeMissingStop, nodeGood] = fetchEpg [nodeGood] :=
  fetchEpg_skips_malformed.1 nodeMissingStop [nodeGood] (Or.inr (Or.inr (Or.inl rfl)))

lemma findIdx?_of_first_true (p : String → Bool) :
    ∀ (l : List String) (i : Nat), i < l.length →
      (∀ j, j < i → p (l.getD j "") = false) → p (l.getD i "") = true →
      l.findIdx? p = some i := by
  intro l
  induction l with
  | nil => intro i hi _ _; simp at hi
  | cons a l ih =>
    intro i hi hprev hcur
    cases i with
    | zero =>
      have ha : p a = true := by simpa using hcur
      simp [ha]
    | succ i =>
      have ha : p a = false := by simpa using hprev 0 (Nat.succ_pos i)
      have hrec := ih i (by simpa using hi)
        (fun j hj => by simpa using hprev (j + 1) (by omega))
        (by simpa using hcur)
      rw [List.findIdx?_cons, if_neg (by simp [ha]), List.findIdx?_succ, hrec]
      rfl

/-- C9 (counterexample): `"DUKE"` matches no priority entry by the claim's
case-insensitive prefix rule, while `"Eden"` does; yet the keyed branch
sorts `DUKE` *before* `Eden` (the comparator's special case maps any name
starting with `duke` onto the `TVNZ Duke` slot, index 6, ahead of `Eden`'s
index 7) — so an unmatched name does not sort after all priority
matches. -/
theorem fetchChannels_sort_counterexample :
    (processChannelData (fun _ _ => 0) (ChannelDir.jobjKeyed [entryDuke, entryEden])).map
        (fun c => c.name.getD "") = ["DUKE", "Eden"] ∧
      PRIORITY_CHANNELS.any (fun p => strStartsWith (strToLower "DUKE") (strToLower p)) = false ∧
      PRIORITY_CHANNELS.any (fun p => strStartsWith (strToLower "Eden") (strToLower p)) = true := by
  refine ⟨by decide, by decide, by decide⟩

/-- C9 (amended): the keyed-branch sort works by mapping each name to a
priority index — the first entry of the fixed priority list whose
lower-cased text prefixes the lower-cased name wins; a name matching no
entry gets the list length (after everything) *except* that a name
starting with `duke` (case-insensitively) is mapped onto the `TVNZ Duke`
slot (index 6); lower index sorts strictly earlier, and equal indices fall
back to `localeCompare` (alphabetical); the names `Three`, `Al Jazeera`,
`TVNZ 1` sort to `TVNZ 1`, `Three`, `Al Jazeera`. -/
theorem fetchChannels_priority_sort :
    (∀ (name : String) (i : Nat), i < PRIORITY_CHANNELS.length →
        (∀ j, j < i →
          strStartsWith (strToLower name) (strToLower (PRIORITY_CHANNELS.getD j "")) = false) →
        strStartsWith (strToLower name) (strToLower (PRIORITY_CHANNELS.getD i "")) = true →
        getPriorityIndex name = i) ∧
    (∀ name : String,
        (∀ x ∈ PRIORITY_CHANNELS, strStartsWith (strToLower name) (strToLower x) = false) →
        (strStartsWith (strToLower name) "duke" = true → getPriorityIndex name = 6) ∧
        (strStartsWith (strToLower name) "duke" = false →
          getPriorityIndex name = PRIORITY_CHANNELS.length)) ∧
    (∀ (lc : String → String → Int) (a b : String),
        getPriorityIndex a < getPriorityIndex b → channelNameCompare lc a b < 0) ∧
    (∀ (lc : String → String → Int) (a b : String),
        getPriorityIndex a = getPriorityIndex b → channelNameCompare lc a b = lc a b) ∧
    (∀ lc : String → String → Int,
        (processChannelData lc exampleDir).map (fun c => c.name.getD "") =
          ["TVNZ 1", "Three", "Al Jazeera"]) := by
  refine ⟨?_, ?_, ?_, ?_, ?_⟩
  · intro name i hi hprev hcur
    rw [getPriorityIndex]
    rw [findIdx?_of_first_true _ PRIORITY_CHANNELS i hi hprev hcur]
  · intro name hnone
    have hfind : PRIORITY_CHANNELS.findIdx?
        (fun p => strStartsWith (strToLower name) (strToLower p)) = none := by
      rw [List.findIdx?_eq_none_iff]
      exact hnone
    constructor
    · intro hduke
      rw [getPriorityIndex, hfind, hduke]
      simp
      decide
    · intro hduke
      rw [getPriorityIndex, hfind, hduke]
      simp
  · intro lc a b h
    have hne : getPriorityIndex a ≠ getPriorityIndex b := Nat.ne_of_lt h
    rw [channelNameCompare, if_pos hne]
    omega
  · intro lc a b h
    rw [channelNameCompare, if_neg (by simpa using h)]
  · intro lc
    have e1 : [entryThree, entryAJ, entryTVNZ1].filterMap (fun e => keyedChannel e.1 e.2) =
        [chanThree, chanAJ, chanTVNZ1] := by decide
    have pT : getPriorityIndex "Three" = 2 := by decide
    have pA : getPriorityIndex "Al Jazeera" = 10 := by decide
    have pZ : getPriorityIndex "TVNZ 1" = 0 := by decide
    have hab : channelCompare lc chanThree chanAJ ≤ 0 := by
      show channelNameCompare lc "Three" "Al Jazeera" ≤ 0
      rw [channelNameCompare]
      simp only [pT, pA]
      norm_num
    have hac : ¬ channelCompare lc chanThree chanTVNZ1 ≤ 0 := by
      show ¬ channelNameCompare lc "Three" "TVNZ 1" ≤ 0
      rw [channelNameCompare]
      simp only [pT, pZ]
      norm_num
    show (sortCmp (channelCompare lc)
        ([entryThree, entryAJ, entryTVNZ1].filterMap (fun e => keyedChannel e.1 e.2))).map
          (fun c => c.name.getD "") = ["TVNZ 1", "Three", "Al Jazeera"]
    rw [e1]
    show (insertCmp (channelCompare lc) chanTVNZ1
        (insertCmp (channelCompare lc) chanAJ
          (insertCmp (channelCompare lc) chanThree []))).map (fun c => c.name.getD "") = _
    rw [insertCmp, insertCmp, if_pos hab, insertCmp, insertCmp, if_neg hac]
    rfl

/-- Witness for C9: the first-match rule at `"Three"` (index 2), the
duke/unmatched rules, the comparator facts, and the concrete sorted
example, all at concrete inputs. -/
theorem fetchChannels_priority_sort_witness :
    getPriorityIndex "Three" = 2 ∧ getPriorityIndex "DUKE HD" = 6 ∧
      getPriorityIndex "Zebra TV" = PRIORITY_CHANNELS.length ∧
      channelNameCompare (fun _ _ => 0) "TVNZ 1" "Three" < 0 ∧
      channelNameCompare (fun _ _ => 0) "Zebra TV" "Aardvark TV" = 0 ∧
      (processChannelData (fun _ _ => 0) exampleDir).map (fun c => c.name.getD "") =
        ["TVNZ 1", "Three", "Al Jazeera"] :=
  ⟨fetchChannels_priority_sort.1 "Three" 2 (by decide) (fun j hj => by
      interval_cases j <;> decide) (by decide),
   (fetchChannels_priority_sort.2.1 "DUKE HD" (by decide)).1 (by decide),
   (fetchChannels_priority_sort.2.1 "Zebra TV" (by decide)).2 (by decide),
   fetchChannels_priority_sort.2.2.1 (fun _ _ => 0) "TVNZ 1" "Three" (by decide),
   fetchChannels_priority_sort.2.2.2.1 (fun _ _ => 0) "Zebra TV" "Aardvark TV" (by decide),
   fetchChannels_priority_sort.2.2.2.2 (fun _ _ => 0)⟩

/-- C10: for the bare-array and `channels`-array shapes, `fetchChannels`
returns the entries filtered only on the presence of `name`, `logo`, `url`
and `epg_id`, in source order and otherwise untouched: concretely, an
entry with a blank-referer header map keeps it verbatim, no `category` or
`needsProxy` is assigned, and a priority channel listed after a
non-priority one stays after it. -/
theorem fetchChannels_array_shapes :
    (∀ (lc : String → String → Int) (cs : List ChanObj),
        processChannelData lc (ChannelDir.jarr cs) = cs.filter chanKeep ∧
        processChannelData lc (ChannelDir.jobjChannels cs) = cs.filter chanKeep) ∧
    (processChannelData (fun _ _ => 0) (ChannelDir.jarr [rawEden, rawDirty]) =
        [rawEden, rawDirty] ∧
      rawDirty.headers = some [("referer", " ")] ∧ rawDirty.category = none ∧
      rawDirty.needsProxy = none) :=
  ⟨fun _ _ => ⟨rfl, rfl⟩, by decide, rfl, rfl, rfl⟩

/-- C1: for the fixed proxy-chain configuration (three proxy prefixes, then
one direct attempt), if candidates `0..k-1` fail and candidate `k`
succeeds, `resilientFetch` returns candidate `k`'s response, and the trace
of issued requests is exactly candidates `0..k`, each tried once, in the
declared order — no request reaches candidates `k+1..3`. -/
theorem resilientFetch_first_success (net : String → FetchOutcome) (url : String)
    (k : Nat) (hk : k < 4) (r : Response)
    (hfail : ∀ i, i < k → attemptOk (net (candAt url i)) = false)
    (hresp : net (candAt url k) = .resp r) (hok : r.ok = true) :
    resilientFetch net url = (Except.ok r, (List.range (k + 1)).map (candAt url)) := by
  have c0 : candAt url 0 = "https://corsproxy.io/?" ++ url := rfl
  have c1 : candAt url 1 = "https://cors.eu.org/" ++ url := rfl
  have c2 : candAt url 2 = "https://thingproxy.freeboard.io/fetch/" ++ url := rfl
  have c3 : candAt url 3 = url := rfl
  match k with
  | 0 =>
    rw [c0] at hresp
    rw [show resilientFetch net url =
        (match proxyLoop net url PROXY_URLS none with
          | (some r, _, tr) => (Except.ok r, tr)
          | (none, lastError, tr) =>
            match net url with
            | .resp r =>
              if r.ok then (Except.ok r, tr ++ [url])
              else
                (Except.error (aggMsg lastError
                  ("Direct request failed with status " ++ toString r.status)), tr ++ [url])
            | .err m => (Except.error (aggMsg lastError m), tr ++ [url]) : _) from rfl]
    rw [show PROXY_URLS = "https://corsproxy.io/?" ::
      ["https://cors.eu.org/", "https://thingproxy.freeboard.io/fetch/"] from rfl]
    rw [proxyLoop_cons_succ net url _ _ none r hresp hok]
    simp [List.range_succ, c0]
  | 1 =>
    rw [c1] at hresp
    have h0 := hfail 0 (by omega)
    rw [c0] at h0
    unfold resilientFetch
    rw [show PROXY_URLS = "https://corsproxy.io/?" ::
      ["https://cors.eu.org/", "https://thingproxy.freeboard.io/fetch/"] from rfl]
    rw [proxyLoop_cons_fail net url _ _ none h0]
    rw [show ("https://cors.eu.org/" :: ["https://thingproxy.freeboard.io/fetch/"] :
        List String) = "https://cors.eu.org/" :: ["https://thingproxy.freeboard.io/fetch/"] from rfl]
    rw [proxyLoop_cons_succ net url _ _ _ r hresp hok]
    simp [List.range_succ, c0, c1]
  | 2 =>
    rw [c2] at hresp
    have h0 := hfail 0 (by omega)
    have h1 := hfail 1 (by omega)
    rw [c0] at h0
    rw [c1] at h1
    unfold resilientFetch
    rw [show PROXY_URLS = "https://corsproxy.io/?" ::
      ["https://cors.eu.org/", "https://thingproxy.freeboard.io/fetch/"] from rfl]
    rw [proxyLoop_cons_fail net url _ _ none h0]
    rw [proxyLoop_cons_fail net url _ _ _ h1]
    rw [proxyLoop_cons_succ net url _ _ _ r hresp hok]
    simp [List.range_succ, c0, c1, c2]
  | 3 =>
    rw [c3] at hresp
    have h0 := hfail 0 (by omega)
    have h1 := hfail 1 (by omega)
    have h2 := hfail 2 (by omega)
    rw [c0] at h0
    rw [c1] at h1
    rw [c2] at h2
    unfold resilientFetch
    rw [show PROXY_URLS = "https://corsproxy.io/?" ::
      ["https://cors.eu.org/", "https://thingproxy.freeboard.io/fetch/"] from rfl]
    rw [proxyLoop_cons_fail net url _ _ none h0]
    rw [proxyLoop_cons_fail net url _ _ _ h1]
    rw [proxyLoop_cons_fail net url _ _ _ h2]
    simp only [proxyLoop]
    rw [hresp]
    simp [hok, List.range_succ, c0, c1, c2, c3]
  | n + 4 => exact absurd hk (by omega)

/-- Witness for C1: with a network where every candidate succeeds, the
first proxy's response is returned and only candidate 0 is contacted. -/
theorem resilientFetch_first_success_witness :
    resilientFetch (fun _ => FetchOutcome.resp respOk) "http://t" =
      (Except.ok respOk, (List.range 1).map (candAt "http://t")) :=
  resilientFetch_first_success (fun _ => FetchOutcome.resp respOk) "http://t" 0 (by omega)
    respOk (fun i hi => absurd hi (by omega)) rfl rfl

/-- C5: if all four candidates (three proxies, then the direct attempt)
fail, `resilientFetch` produces a single aggregated error whose message is
built only from the last proxy's failure message and the direct attempt's
failure message. -/
theorem resilientFetch_all_fail (net : String → FetchOutcome) (url : String)
    (hfail : ∀ i, i < 4 → attemptOk (net (candAt url i)) = false) :
    resilientFetch net url =
      (Except.error ("All proxies failed. Last error: " ++ candErrMsg net (candAt url 2) ++
        ". Direct connection also failed with message: \"" ++ directErrMsg net url ++ "\""),
       candidates url) := by
  have h0 := hfail 0 (by omega)
  have h1 := hfail 1 (by omega)
  have h2 := hfail 2 (by omega)
  have h3 := hfail 3 (by omega)
  rw [show candAt url 0 = "https://corsproxy.io/?" ++ url from rfl] at h0
  rw [show candAt url 1 = "https://cors.eu.org/" ++ url from rfl] at h1
  rw [show candAt url 2 = "https://thingproxy.freeboard.io/fetch/" ++ url from rfl] at h2
  rw [show candAt url 3 = url from rfl] at h3
  unfold resilientFetch
  rw [show PROXY_URLS = "https://corsproxy.io/?" ::
    ["https://cors.eu.org/", "https://thingproxy.freeboard.io/fetch/"] from rfl]
  rw [proxyLoop_cons_fail net url _ _ none h0]
  rw [proxyLoop_cons_fail net url _ _ _ h1]
  rw [proxyLoop_cons_fail net url _ _ _ h2]
  simp only [proxyLoop]
  cases hn : net url with
  | resp r =>
    have hok : r.ok = false := by simpa [attemptOk, hn] using h3
    simp [hn, hok, aggMsg, candErrMsg, directErrMsg, candidates, PROXY_URLS,
      show candAt url 2 = "https://thingproxy.freeboard.io/fetch/" ++ url from rfl]
  | err m =>
    simp [hn, aggMsg, candErrMsg, directErrMsg, candidates, PROXY_URLS,
      show candAt url 2 = "https://thingproxy.freeboard.io/fetch/" ++ url from rfl]

/-- Witness for C5: a network where every request throws `"boom"`. -/
theorem resilientFetch_all_fail_witness :
    resilientFetch (fun _ => FetchOutcome.err "boom") "http://t" =
      (Except.error ("All proxies failed. Last error: " ++
        candErrMsg (fun _ => FetchOutcome.err "boom") (candAt "http://t" 2) ++
        ". Direct connection also failed with message: \"" ++
        directErrMsg (fun _ => FetchOutcome.err "boom") "http://t" ++ "\""),
       candidates "http://t") :=
  resilientFetch_all_fail (fun _ => FetchOutcome.err "boom") "http://t" (fun _ _ => rfl)

/-- C6: a candidate that yields a non-2xx response is treated like a
transport failure: (1) `resilientFetch` never returns a response whose
`ok` flag is false, and (2) if the first `k` candidates fail and candidate
`k` (a proxy) yields a non-2xx response, the next candidate is contacted. -/
theorem resilientFetch_non2xx_skipped :
    (∀ (net : String → FetchOutcome) (url : String) (r : Response),
        (resilientFetch net url).1 = Except.ok r → r.ok = true) ∧
    (∀ (net : String → FetchOutcome) (url : String) (k : Nat) (r : Response),
        k < 3 → (∀ i, i < k → attemptOk (net (candAt url i)) = false) →
        net (candAt url k) = .resp r → r.ok = false →
        candAt url (k + 1) ∈ (resilientFetch net url).2) := by
  constructor
  · intro net url r h
    unfold resilientFetch at h
    rcases hp : proxyLoop net url PROXY_URLS none with ⟨res, le, tr⟩
    rw [hp] at h
    cases res with
    | some r' =>
      simp at h
      have := proxyLoop_some_ok net url PROXY_URLS none r' (by rw [hp])
      exact h ▸ this
    | none =>
      cases hn : net url with
      | resp r' =>
        by_cases hok : r'.ok = true
        · simp [hn, hok] at h
          exact h ▸ hok
        · simp [hn, hok] at h
      | err m => simp [hn] at h
  · intro net url k r hk hfail hresp hok
    have hfk : attemptOk (net (candAt url k)) = false := by
      rw [hresp]; simpa [attemptOk] using hok
    match k with
    | 0 =>
      apply mem_resilientFetch_trace
      rw [show candAt url 0 = "https://corsproxy.io/?" ++ url from rfl] at hfk
      rw [show PROXY_URLS = "https://corsproxy.io/?" ::
        ["https://cors.eu.org/", "https://thingproxy.freeboard.io/fetch/"] from rfl]
      rw [proxyLoop_cons_fail net url _ _ none hfk]
      rw [show candAt url 1 = "https://cors.eu.org/" ++ url from rfl]
      exact List.mem_cons_of_mem _ (proxyLoop_trace_head net url _ _ _)
    | 1 =>
      apply mem_resilientFetch_trace
      have h0 := hfail 0 (by omega)
      rw [show candAt url 0 = "https://corsproxy.io/?" ++ url from rfl] at h0
      rw [show candAt url 1 = "https://cors.eu.org/" ++ url from rfl] at hfk
      rw [show PROXY_URLS = "https://corsproxy.io/?" ::
        ["https://cors.eu.org/", "https://thingproxy.freeboard.io/fetch/"] from rfl]
      rw [proxyLoop_cons_fail net url _ _ none h0]
      rw [proxyLoop_cons_fail net url _ _ _ hfk]
      rw [show candAt url 2 = "https://thingproxy.freeboard.io/fetch/" ++ url from rfl]
      exact List.mem_cons_of_mem _ (List.mem_cons_of_mem _ (proxyLoop_trace_head net url _ _ _))
    | 2 =>
      have h0 := hfail 0 (by omega)
      have h1 := hfail 1 (by omega)
      rw [show candAt url 0 = "https://corsproxy.io/?" ++ url from rfl] at h0
      rw [show candAt url 1 = "https://cors.eu.org/" ++ url from rfl] at h1
      rw [show candAt url 2 = "https://thingproxy.freeboard.io/fetch/" ++ url from rfl] at hfk
      unfold resilientFetch
      rw [show PROXY_URLS = "https://corsproxy.io/?" ::
        ["https://cors.eu.org/", "https://thingproxy.freeboard.io/fetch/"] from rfl]
      rw [proxyLoop_cons_fail net url _ _ none h0]
      rw [proxyLoop_cons_fail net url _ _ _ h1]
      rw [proxyLoop_cons_fail net url _ _ _ hfk]
      simp only [proxyLoop]
      rw [show candAt url 3 = url from rfl]
      cases hn : net url with
      | resp r' => by_cases hok' : r'.ok = true <;> simp [hn, hok', List.mem_append]
      | err m => simp [hn, List.mem_append]

/-- Witness for C6: the returned response of an all-ok network is 2xx, and
with a network that always yields 404 responses, candidate 1 is contacted
after candidate 0's non-2xx response. -/
theorem resilientFetch_non2xx_skipped_witness :
    respOk.ok = true ∧
      candAt "http://t" 1 ∈ (resilientFetch (fun _ => FetchOutcome.resp resp404) "http://t").2 :=
  ⟨resilientFetch_non2xx_skipped.1 (fun _ => FetchOutcome.resp respOk) "http://t" respOk rfl,
   resilientFetch_non2xx_skipped.2 (fun _ => FetchOutcome.resp resp404) "http://t" 0 resp404
     (by omega) (fun i hi => absurd hi (by omega)) rfl rfl⟩

lemma strMk_data (s : String) : String.mk s.data = s := rfl

lemma uriReplaceChars_id (ins : List Char) :
    ∀ cs : List Char, containsSub cs ['U', 'R', 'I', '='] = false →
      uriReplaceChars ins cs = cs := by
  intro cs
  induction cs with
  | nil => intro _; rfl
  | cons c rest ih =>
    intro h
    simp only [containsSub, Bool.or_eq_false_iff] at h
    obtain ⟨h1, h2⟩ := h
    rw [uriReplaceChars.eq_def]
    split
    · next c2 rest2 heq =>
      injection heq with hc hr
      subst hc; subst hr
      simp [List.isPrefixOf] at h1
    · next heq =>
      injection heq with hc hr
      subst hc; subst hr
      simp [List.isPrefixOf] at h1
    · next c2 rest2 hn1 hn2 heq =>
      injection heq with hc hr
      subst hc; subst hr
      rw [ih h2]
    · next heq => simp at heq

lemma serverRewriteLine_no_uri (base l : String) (h : strContains l "URI=" = false) :
    serverRewriteLine base l = mediaLineReplace base l := by
  rw [serverRewriteLine, uriReplaceChars_id _ _ h, strMk_data]

lemma matchesMedia_hash (l : String) (h : strStartsWith l "#" = true) :
    matchesMedia l.data = false := by
  rcases hl : l.data with _ | ⟨c, rest⟩
  · rfl
  · rw [strStartsWith, hl] at h
    have hc : c = '#' := by
      have := by simpa [List.isPrefixOf] using h
      exact this.symm
    subst hc
    simp [matchesMedia]

/-- C3 (counterexample): in the serverless gateway, a relative manifest
line is rewritten to its *resolved absolute URL*, not to a gateway URL
wrapping its percent-encoding: for base manifest
`https://origin.example/live/master.m3u8` and line `segment1.ts`, the
rewritten line is `https://origin.example/live/segment1.ts`, which
contains no `?url=` at all — so it cannot equal
`<gateway-base>?url=<percent-encoding>` for any gateway base. -/
theorem streamProxy_rewrite_counterexample :
    vercelManifestBase "https://origin.example/live/master.m3u8" =
        "https://origin.example/live/" ∧
      vercelRewriteLine "https://origin.example/live/" "segment1.ts" =
        "https://origin.example/live/segment1.ts" ∧
      strContains (vercelRewriteLine "https://origin.example/live/" "segment1.ts")
        "?url=" = false :=
  ⟨by decide, by decide, by decide⟩

/-- C3 (amended): the two gateways rewrite differently.  In the express
gateway (`server.js`), a non-`#` line naming a media file
(`.ts/.aac/.mp4/.m4s/.m3u8`, optional query) that is not absolute becomes
the gateway base plus `?url=` plus the percent-encoding of the base URL
concatenated with the line; absolute lines, `#`-lines without `URI=`
attributes, and relative lines without a media extension pass through
verbatim.  In the serverless gateway (`stream-proxy.ts`), a non-blank
line starting with neither `#` nor `http` is replaced by its resolution
against the manifest base — with no gateway wrapping — and every other
line passes through. -/
theorem streamProxy_rewrite_amended :
    (∀ base l : String, strContains l "URI=" = false → matchesMedia l.data = true →
        strStartsWith l "http" = false →
        serverRewriteLine base l = SERVER_GATEWAY ++ encodeURIComponent (base ++ l)) ∧
    (∀ base l : String, strContains l "URI=" = false → strStartsWith l "http" = true →
        serverRewriteLine base l = l) ∧
    (∀ base l : String, strContains l "URI=" = false → strStartsWith l "#" = true →
        serverRewriteLine base l = l) ∧
    (∀ base l : String, strContains l "URI=" = false → matchesMedia l.data = false →
        serverRewriteLine base l = l) ∧
    (∀ base l : String, (strTrim l).length ≠ 0 → strStartsWith l "#" = false →
        strStartsWith l "http" = false → vercelRewriteLine base l = urlResolve l base) ∧
    (∀ base l : String, strStartsWith l "#" = true ∨ strStartsWith l "http" = true →
        vercelRewriteLine base l = l) := by
  refine ⟨?_, ?_, ?_, ?_, ?_, ?_⟩
  · intro base l h1 h2 h3
    rw [serverRewriteLine_no_uri base l h1]
    simp [mediaLineReplace, h2, h3]
  · intro base l h1 h2
    rw [serverRewriteLine_no_uri base l h1]
    by_cases hm : matchesMedia l.data <;> simp [mediaLineReplace, hm, h2]
  · intro base l h1 h2
    rw [serverRewriteLine_no_uri base l h1]
    simp [mediaLineReplace, matchesMedia_hash l h2]
  · intro base l h1 h2
    rw [serverRewriteLine_no_uri base l h1]
    simp [mediaLineReplace, h2]
  · intro base l h1 h2 h3
    simp [vercelRewriteLine, h1, h2, h3]
  · intro base l h
    rcases h with h | h <;> simp [vercelRewriteLine, h]

/-- Witness for C3 (amended): each rewrite rule at a concrete line. -/
theorem streamProxy_rewrite_amended_witness :
    serverRewriteLine "https://origin.example/live/" "segment1.ts" =
        SERVER_GATEWAY ++
          encodeURIComponent ("https://origin.example/live/" ++ "segment1.ts") ∧
      serverRewriteLine "https://origin.example/live/" "https://cdn.example/seg.ts" =
        "https://cdn.example/seg.ts" ∧
      serverRewriteLine "https://origin.example/live/" "#EXTM3U" = "#EXTM3U" ∧
      serverRewriteLine "https://origin.example/live/" "media.key" = "media.key" ∧
      vercelRewriteLine "https://origin.example/live/" "segment1.ts" =
        urlResolve "segment1.ts" "https://origin.example/live/" ∧
      vercelRewriteLine "https://origin.example/live/" "#EXTINF:10," = "#EXTINF:10," :=
  ⟨streamProxy_rewrite_amended.1 "https://origin.example/live/" "segment1.ts"
      (by decide) (by decide) (by decide),
   streamProxy_rewrite_amended.2.1 "https://origin.example/live/"
      "https://cdn.example/seg.ts" (by decide) (by decide),
   streamProxy_rewrite_amended.2.2.1 "https://origin.example/live/" "#EXTM3U"
      (by decide) (by decide),
   streamProxy_rewrite_amended.2.2.2.1 "https://origin.example/live/" "media.key"
      (by decide) (by decide),
   streamProxy_rewrite_amended.2.2.2.2.1 "https://origin.example/live/" "segment1.ts"
      (by decide) (by decide) (by decide),
   streamProxy_rewrite_amended.2.2.2.2.2 "https://origin.example/live/" "#EXTINF:10,"
      (Or.inl (by decide))⟩

/-- C7 (counterexample): the `part_002` handler maps a non-2xx upstream
response to a client 500 carrying a diagnostic message — it does not echo
the upstream 404. -/
theorem upstream_status_counterexample :
    part002Handler (fun _ => FetchOutcome.resp resp404) (some "https://up.example/a.ts") =
        ⟨500, "Proxy error: Upstream server responded with 404"⟩ ∧
      resp404.status = 404 ∧ (500 : Nat) ≠ 404 :=
  ⟨by decide, rfl, by decide⟩

/-- C7 (amended): the express `server.js` gateway and the serverless
gateway echo a non-2xx upstream status to the client unchanged; the
`part_002` handler instead answers 500 with a message naming the upstream
status. -/
theorem upstream_status_amended :
    (∀ (net : String → FetchOutcome) (u : String) (r : Response),
        decodeURIComponentJS u ≠ "" → net (decodeURIComponentJS u) = .resp r →
        r.ok = false → serverHandler net (some u) = ⟨r.status, r.statusText⟩) ∧
    (∀ (net : String → FetchOutcome) (u : String) (r : Response), u ≠ "" →
        net (decodeURIComponentJS u) = .resp r → r.ok = false →
        vercelHandler net (some u) = ⟨r.status, r.statusText⟩) ∧
    (∀ (net : String → FetchOutcome) (t : String) (r : Response), t ≠ "" →
        net t = .resp r → r.ok = false →
        part002Handler net (some t) =
          ⟨500, "Proxy error: Upstream server responded with " ++ toString r.status⟩) := by
  refine ⟨?_, ?_, ?_⟩
  · intro net u r h1 h2 h3
    simp only [serverHandler, jsStringCoerce]
    rw [if_neg h1, h2]
    simp [h3]
  · intro net u r h1 h2 h3
    simp only [vercelHandler]
    rw [if_neg h1, h2]
    simp [h3]
  · intro net t r h1 h2 h3
    simp only [part002Handler]
    rw [if_neg h1, h2]
    simp [h3]

/-- Witness for C7 (amended): a 404 upstream at each handler. -/
theorem upstream_status_amended_witness :
    serverHandler (fun _ => FetchOutcome.resp resp404) (some "https://up.example/a.ts") =
        ⟨resp404.status, resp404.statusText⟩ ∧
      vercelHandler (fun _ => FetchOutcome.resp resp404) (some "https://up.example/a.ts") =
        ⟨resp404.status, resp404.statusText⟩ ∧
      part002Handler (fun _ => FetchOutcome.resp resp404) (some "https://up.example/b.ts") =
        ⟨500, "Proxy error: Upstream server responded with " ++ toString resp404.status⟩ :=
  ⟨upstream_status_amended.1 (fun _ => FetchOutcome.resp resp404) "https://up.example/a.ts"
      resp404 (by decide) rfl rfl,
   upstream_status_amended.2.1 (fun _ => FetchOutcome.resp resp404) "https://up.example/a.ts"
      resp404 (by decide) rfl rfl,
   upstream_status_amended.2.2 (fun _ => FetchOutcome.resp resp404) "https://up.example/b.ts"
      resp404 (by decide) rfl rfl⟩

/-- C8: the serverless handler and the `part_002` handler answer 400 when
the `url` parameter is absent; but in `server.js` the absent parameter is
first coerced by `String(...)` to the non-empty string `"undefined"`, so
the 400-guard never fires: the handler fetches the literal URL
`"undefined"` — which the fetch implementation rejects — and answers 500,
not 400. -/
theorem missing_url_param :
    (∀ net : String → FetchOutcome,
        vercelHandler net none = ⟨400, "Missing or invalid \"url\" query parameter."⟩) ∧
    (∀ net : String → FetchOutcome,
        part002Handler net none = ⟨400, "Missing url parameter"⟩) ∧
    (jsStringCoerce none = "undefined" ∧
      decodeURIComponentJS "undefined" = "undefined") ∧
    (∀ (net : String → FetchOutcome) (m : String), net "undefined" = .err m →
        serverHandler net none = ⟨500, m⟩) := by
  refine ⟨fun _ => rfl, fun _ => rfl, ⟨rfl, by decide⟩, ?_⟩
  intro net m h
  have hdec : decodeURIComponentJS (jsStringCoerce none) = "undefined" := by decide
  simp only [serverHandler, hdec]
  rw [if_neg (by decide : ¬ ("undefined" : String) = ""), h]

/-- Witness for C8: with the node-fetch failure message for a non-absolute
URL, the `server.js` handler answers 500 on an absent `url` parameter. -/
theorem missing_url_param_witness :
    serverHandler (fun _ => FetchOutcome.err "Only absolute URLs are supported") none =
      ⟨500, "Only absolute URLs are supported"⟩ :=
  missing_url_param.2.2.2 (fun _ => FetchOutcome.err "Only absolute URLs are supported")
    "Only absolute URLs are supported" rfl

end KiwiTV
